import Mathlib

/-
Verification development for the repository analysis pipeline
(scanner.py together with the summarizer adapter in ai_service.py).

The Python source is shallowly embedded: Python strings are modelled by
Lean String values, but every string operation used by the source
(strip, split, startswith, lower, replace, join) is re-implemented here
on the underlying character list by structural recursion, so that every
definition evaluates inside the kernel.  Fallible calls (file reads,
network calls, the summarizer) are modelled by explicit Except or sum
types whose error branch stands for a raised Python exception.
-/

/-! ### Character-level models of the Python string operations -/

/-- Model of Python str.strip with no argument: remove whitespace from
both ends of the character list. -/
def pyStripChars (cs : List Char) : List Char :=
  ((cs.dropWhile Char.isWhitespace).reverse.dropWhile Char.isWhitespace).reverse

/-- Model of Python str.strip on a string value. -/
def pyStrip (s : String) : String := ⟨pyStripChars s.data⟩

/-- Model of Python str.startswith. -/
def pyStartsWith (s pre : String) : Bool := pre.data.isPrefixOf s.data

/-- Model of Python str.split with a single separator character, on
character lists.  Matches CPython: splitting the empty string gives one
empty piece, adjacent separators give empty pieces. -/
def pySplitChar (sep : Char) : List Char → List (List Char)
  | [] => [[]]
  | c :: rest =>
    if c = sep then [] :: pySplitChar sep rest
    else
      match pySplitChar sep rest with
      | [] => [[c]]
      | h :: t => (c :: h) :: t

/-- Model of Python str.split with a single separator character. -/
def pySplit (sep : Char) (s : String) : List String :=
  (pySplitChar sep s.data).map String.mk

/-- Model of Python str.lower (ASCII case folding, which is all the
source relies on for package names). -/
def pyLower (s : String) : String := ⟨s.data.map Char.toLower⟩

/-- Model of Python str.replace on character lists, driven by fuel so
that the recursion is structural; the fuel is set to the length of the
subject string, which bounds the number of replacement steps. -/
def pyReplaceChars (pat repl : List Char) : Nat → List Char → List Char
  | _, [] => []
  | 0, l => l
  | fuel + 1, c :: rest =>
    if pat ≠ [] ∧ pat.isPrefixOf (c :: rest) then
      repl ++ pyReplaceChars pat repl fuel (List.drop (pat.length - 1) rest)
    else
      c :: pyReplaceChars pat repl fuel rest

/-- Model of Python str.replace (all occurrences, left to right). -/
def pyReplace (s pat repl : String) : String :=
  ⟨pyReplaceChars pat.data repl.data s.data.length s.data⟩

/-- Model of Python str.join over a list of strings. -/
def pyJoin (sep : String) : List String → String
  | [] => ""
  | [x] => x
  | x :: y :: rest => ⟨x.data ++ sep.data ++ (pyJoin sep (y :: rest)).data⟩

/-- Model of Python str(n) for a natural number. -/
def pyNatStr (n : Nat) : String := ⟨Nat.toDigits 10 n⟩

/-! ### Version detection (detect_python_version in scanner.py)

The filesystem reads performed by detect_python_version are modelled per
file: a file is absent, raises on read, or yields its content.  The TOML
parse of pyproject.toml is modelled by its outcome, a record carrying
the two fields the source looks up. -/

/-- Outcome of opening and reading one file, as the source observes it:
the file is absent (os.path.exists is false), the read raises an
exception, or the read returns the file content. -/
inductive FileRead where
  | absent : FileRead
  | readError : FileRead
  | content : String → FileRead
deriving DecidableEq

/-- Outcome of reading and TOML-decoding pyproject.toml: absent, any
read or decode failure, or a decoded configuration carrying the two
lookups the source performs (project.requires-python and
tool.poetry.dependencies.python). -/
inductive PyprojectRead where
  | absent : PyprojectRead
  | readError : PyprojectRead
  | parsed : Option String → Option String → PyprojectRead
deriving DecidableEq

/-- Files of the repository root consulted by detect_python_version. -/
structure RepoVersionFiles where
  runtime_txt : FileRead
  python_version_file : FileRead
  pyproject_toml : PyprojectRead
deriving DecidableEq

/-- Translation of the runtime.txt branch of detect_python_version:
strip the content; if it starts with a python- marker, return element 1
of the split on the dash character, otherwise return the stripped
content. -/
def processRuntimeContent (content : String) : String :=
  let versionStr := pyStrip content
  if pyStartsWith versionStr "python-" then
    (pySplit '-' versionStr).getD 1 ""
  else
    versionStr

/-- Translation of detect_python_version in scanner.py.  Each branch
whose read fails falls through to the next check; a successful read of
runtime.txt or .python-version always returns; a decoded pyproject.toml
returns the PEP 621 field if present, else the poetry field if present;
otherwise the sentinel is returned. -/
def detect_python_version (fs : RepoVersionFiles) : String :=
  match fs.runtime_txt with
  | .content c => processRuntimeContent c
  | _ =>
    match fs.python_version_file with
    | .content c => pyStrip c
    | _ =>
      match fs.pyproject_toml with
      | .parsed (some v) _ => v
      | .parsed none (some v) => v
      | _ => "Undetermined"

/-! ### Dependency extraction (parse_pinned_requirements in scanner.py)

The packaging.requirements.Requirement constructor is modelled to the
extent the source exercises it: the requirement name is the maximal
run of characters before the first specifier operator character, names
must be non-empty and drawn from the PEP 503 alphabet, and the
specifier set is the comma-separated list of operator/version pieces
with whitespace removed (str of a one-element specifier set is exactly
that one normalized piece, which is all the source inspects). -/

/-- Dependency record produced by the extractor: lowercased name plus
exact version. -/
structure Dependency where
  name : String
  version : String
deriving DecidableEq

/-- Parsed view of one requirement line, mirroring the two attributes
of packaging Requirement that the source reads. -/
structure PyRequirement where
  name : String
  specifiers : List String
deriving DecidableEq

/-- Characters that begin a version specifier operator in PEP 508. -/
def specOperatorChars : List Char := ['=', '<', '>', '!', '~']

/-- Characters admitted in a requirement name (PEP 503 normalized
alphabet plus dots and underscores, as packaging accepts). -/
def requirementNameChar (c : Char) : Bool :=
  c.isAlphanum || c = '-' || c = '_' || c = '.'

/-- Model of the packaging Requirement constructor on one stripped
line: returns none when the line cannot be parsed as a requirement. -/
def parseRequirement (line : String) : Option PyRequirement :=
  let cs := (pyStrip line).data
  let nameRaw := cs.takeWhile (fun c => !specOperatorChars.contains c)
  let specCs := cs.drop nameRaw.length
  let name := pyStrip (String.mk nameRaw)
  if name.data.isEmpty then none
  else if !(name.data.all requirementNameChar) then none
  else
    let pieces :=
      if specCs.isEmpty then ([] : List String)
      else (pySplitChar ',' specCs).map
        (fun p => String.mk (p.filter (fun c => !c.isWhitespace)))
    some ⟨name, pieces⟩

/-- Representation of str applied to a requirement specifier set, used
by the source only after checking the set has exactly one element. -/
def specifierSetStr (specs : List String) : String := pyJoin "," specs

/-- Translation of parse_pinned_requirements in scanner.py, applied to
the text content of the requirements file.  Blank lines, comment lines
and editable-install lines are skipped; unparsable lines are skipped;
a parsed requirement is kept exactly when its specifier set has one
element and that element is an equality pin, in which case the name is
lowercased and the version is the specifier text with the equality
operator removed. -/
def parse_pinned_requirements (content : String) : List Dependency :=
  (pySplit '\n' content).foldl
    (fun dependencies rawLine =>
      let line := pyStrip rawLine
      if line.data.isEmpty || pyStartsWith line "#" || pyStartsWith line "-e" then
        dependencies
      else
        match parseRequirement line with
        | none => dependencies
        | some req =>
          if req.specifiers.length = 1 &&
              pyStartsWith (specifierSetStr req.specifiers) "==" then
            let version := pyStrip (pyReplace (specifierSetStr req.specifiers) "==" "")
            dependencies ++ [⟨pyLower req.name, version⟩]
          else
            dependencies)
    []

/-! ### Vulnerability lookup (check_osv_for_vulnerabilities in scanner.py)

The single batch HTTP call is modelled by its outcome: a failure of one
of the three exception classes the source catches, or a decoded list of
result objects.  A result object carries the optional query echo (the
package name and version the service copied back) and the optional
vulns array; each vulns element carries an optional id, matching the
v.get call in the source. -/

/-- Vulnerability finding entry of the dependency report. -/
structure Finding where
  name : String
  version : String
  status : String
  reason : String
deriving DecidableEq

/-- Query echo inside one batch result, as read by the source from
result.query.package.name and result.query.version. -/
structure OSVQueryEcho where
  name : String
  version : String
deriving DecidableEq

/-- One element of the results array of the batch response. -/
structure OSVResult where
  query : Option OSVQueryEcho
  vulns : Option (List (Option String))
deriving DecidableEq

/-- Failure classes of the batch call that the source catches. -/
inductive OSVFailure where
  | httpStatusError : Nat → OSVFailure
  | requestError : OSVFailure
  | otherError : OSVFailure
deriving DecidableEq

/-- Translation of the reason text built for a vulnerable dependency:
the first three vulnerability ids joined by a comma, then a count of
the remainder when more than three are present. -/
def vulnReason (entries : List (Option String)) : String :=
  let ids := entries.map (fun v => v.getD "N/A")
  let reason := ⟨("Vulnerable to: ".data ++ (pyJoin ", " (ids.take 3)).data)⟩
  if ids.length > 3 then
    ⟨reason.data ++ ", and ".data ++ (pyNatStr (ids.length - 3)).data ++ " more.".data⟩
  else
    reason

/-- Synthetic warning finding emitted when the batch call fails. -/
def osvFailureFinding : OSVFailure → Finding
  | .httpStatusError code =>
    ⟨"OSV Check Failed", "", "warning",
      ⟨"Could not check dependencies due to API error: ".data ++ (pyNatStr code).data⟩⟩
  | .requestError =>
    ⟨"OSV Check Failed", "", "warning",
      "Could not check dependencies due to network error."⟩
  | .otherError =>
    ⟨"OSV Check Failed", "", "warning", "Unexpected error during check."⟩

/-- Model of the results_map dictionary lookup in the mismatch branch:
the dictionary is built over the results that carry a query echo, keyed
by name and version, with later results overwriting earlier ones, so a
lookup returns the last matching result. -/
def resultsMapLookup (results : List OSVResult) (name version : String) :
    Option OSVResult :=
  ((results.filter (fun r => r.query.isSome)).reverse).find?
    (fun r => r.query = some ⟨name, version⟩)

/-- Translation of check_osv_for_vulnerabilities in scanner.py.  An
empty dependency list short-circuits before any network activity; a
failed call yields the single synthetic warning finding; a response
whose result count matches the query count is consumed positionally;
otherwise each dependency is reconciled through the results_map keyed
by name and version. -/
def check_osv_for_vulnerabilities (dependencies : List Dependency)
    (response : Except OSVFailure (List OSVResult)) : List Finding :=
  if dependencies = [] then []
  else
    match response with
    | .error failure => [osvFailureFinding failure]
    | .ok results =>
      if results.length ≠ dependencies.length then
        dependencies.filterMap (fun dep =>
          match resultsMapLookup results dep.name dep.version with
          | some r =>
            match r.vulns with
            | some entries =>
              some ⟨dep.name, dep.version, "incompatible", vulnReason entries⟩
            | none => none
          | none => none)
      else
        (dependencies.zip results).filterMap (fun p =>
          match p.2.vulns with
          | some entries =>
            some ⟨p.1.name, p.1.version, "incompatible", vulnReason entries⟩
          | none => none)

/-! ### Syntax scanning (DeprecatedSyntaxVisitor and analyze_python_file)

The abstract syntax tree is modelled by a mutual inductive: a node is a
Print node (the node class of the Python 2 grammar), a Raise node
carrying the list of attribute names the node object exposes, or a node
of any other class.  NodeVisitor dispatch selects the handler by node
class, so the Print and Raise constructors stand for exactly those two
classes and the third constructor for every other class, for which only
generic_visit runs.  Snippet extraction (ast.get_source_segment with its
fallback) is kept abstract as a function from nodes to text, since no
claim depends on the snippet content. -/

mutual
/-- Node of the parsed tree.  The Raise constructor records the
attribute names present on the node object (a Python 3 Raise node
exposes exc and cause; a Python 2 one exposes type, inst and tback)
because the Raise handler of the visitor tests attribute presence. -/
inductive PyNode where
  | printStmt : Nat → PyNodeList → PyNode
  | raiseStmt : Nat → List String → PyNodeList → PyNode
  | otherNode : String → Nat → PyNodeList → PyNode
/-- Child list of a node. -/
inductive PyNodeList where
  | nil : PyNodeList
  | cons : PyNode → PyNodeList → PyNodeList
end

/-- Syntax issue record appended by the visitor and by the error
handlers of analyze_python_file. -/
structure SyntaxIssue where
  issueType : String
  file : String
  line : Nat
  description : String
  code_snippet : String
deriving DecidableEq

mutual
/-- Translation of DeprecatedSyntaxVisitor.visit on one node: the
handler for the node class runs, then traversal continues into the
children (generic_visit).  The Print handler always appends its issue;
the Raise handler appends its issue exactly when the node exposes both
the type and the inst attributes, and its elif arm is a pass in the
source; every other class has no handler and only recurses. -/
def visitNode (snippet : PyNode → String) (filePath : String) :
    PyNode → List SyntaxIssue
  | .printStmt lineno children =>
    ⟨"Print Statement Syntax (Python 2)", filePath, lineno,
      "Uses Python 2-style print statement.",
      snippet (.printStmt lineno children)⟩ ::
    visitChildren snippet filePath children
  | .raiseStmt lineno attrs children =>
    (if attrs.contains "type" && attrs.contains "inst" then
      [⟨"Old-style raise statement (Python 2)", filePath, lineno,
        "Uses deprecated Python 2 raise E, V syntax.",
        snippet (.raiseStmt lineno attrs children)⟩]
    else [])
    ++ visitChildren snippet filePath children
  | .otherNode _ _ children =>
    visitChildren snippet filePath children
/-- Traversal of a child list, concatenating the issues of each child
in order. -/
def visitChildren (snippet : PyNode → String) (filePath : String) :
    PyNodeList → List SyntaxIssue
  | .nil => []
  | .cons n rest =>
    visitNode snippet filePath n ++ visitChildren snippet filePath rest
end

mutual
/-- Characterization of the trees the CPython Python 3 parser can
produce, which is the relevant ground truth about the external parser:
the Python 3 grammar has no print statement, so no Print node is ever
emitted (a print call parses as an Expr node holding a Call), and a
Python 3 Raise node exposes the exc and cause attributes but never the
Python 2 attributes type and inst. -/
def isPy3Node : PyNode → Bool
  | .printStmt _ _ => false
  | .raiseStmt _ attrs children =>
    !(attrs.contains "type") && !(attrs.contains "inst") && isPy3List children
  | .otherNode _ _ children => isPy3List children
/-- Characterization of child lists of Python 3 parser output. -/
def isPy3List : PyNodeList → Bool
  | .nil => true
  | .cons n rest => isPy3Node n && isPy3List rest
end

/-- Exception raised while reading or parsing one file, as matched by
the two except clauses of analyze_python_file: a SyntaxError carrying
the failing line and message, or any other exception. -/
inductive PyFileError where
  | syntaxError : Nat → String → PyFileError
  | otherError : String → PyFileError
deriving DecidableEq

/-- Issue appended by the SyntaxError handler of analyze_python_file. -/
def syntaxErrorIssue (filepath : String) (lineno : Nat) (msg : String) :
    SyntaxIssue :=
  ⟨"Syntax Error", filepath, lineno,
    ⟨"File could not be parsed: ".data ++ msg.data⟩,
    ⟨"# Error on line ".data ++ (pyNatStr lineno).data⟩⟩

/-- Issue appended by the generic exception handler of
analyze_python_file. -/
def analysisErrorIssue (filepath : String) (msg : String) : SyntaxIssue :=
  ⟨"Analysis Error", filepath, 0,
    ⟨"Could not analyze file: ".data ++ msg.data⟩,
    "# Analysis Failed"⟩

/-- Translation of analyze_python_file in scanner.py.  The file read
and the parse each either succeed or raise; a raised SyntaxError yields
the single Syntax Error issue, any other raised exception yields the
single Analysis Error issue, and a successful parse runs the visitor
over the tree.  The read outcome carries the exception text on failure
(a read failure is never a SyntaxError), and the parser is abstract
because the claims constrain it only through its outcome. -/
def analyze_python_file (filepath : String)
    (readResult : Except String String)
    (parse : String → Except PyFileError PyNode)
    (snippet : PyNode → String) : List SyntaxIssue :=
  match readResult with
  | .error msg => [analysisErrorIssue filepath msg]
  | .ok content =>
    match parse content with
    | .error (.syntaxError lineno msg) => [syntaxErrorIssue filepath lineno msg]
    | .error (.otherError msg) => [analysisErrorIssue filepath msg]
    | .ok tree => visitNode snippet filepath tree

/-! ### Summarizer call and report assembly (analyze_repository body)

The awaited Gemini call inside generate_report_summary_and_steps either
raises or returns response text; the source then attempts a JSON parse
of that text.  The model records the observable outcome: the call
raised, or it returned text whose JSON parse failed, or it returned a
parsed object carrying whichever of the three expected keys are
present.  An exception escaping the awaited call propagates through
asyncio.run into analyze_repository, which has no handler for it. -/

/-- Parsed JSON object returned by the summarizer, with each expected
key optional because the dict.get calls in analyze_repository supply
defaults for absent keys. -/
structure AIContent where
  summary : Option String
  effort : Option String
  steps : Option (List String)
deriving DecidableEq

/-- Observable outcome of the summarizer network call: the call
returned text (whose JSON parse result is recorded, none standing for a
json.JSONDecodeError), or the call raised with the given message. -/
inductive SummarizerResponse where
  | content : Option AIContent → SummarizerResponse
  | raised : String → SummarizerResponse
deriving DecidableEq

/-- Translation of generate_report_summary_and_steps in ai_service.py:
a raised call propagates; returned text is JSON-parsed, and a parse
failure is replaced by the local fallback object of ai_service. -/
def generate_report_summary_and_steps (resp : SummarizerResponse) :
    Except String AIContent :=
  match resp with
  | .raised msg => .error msg
  | .content (some parsed) => .ok parsed
  | .content none =>
    .ok ⟨some "Analysis completed, but structured output failed.",
      some "Unknown", some ["Review report manually."]⟩

/-- Recommendations block of the final report. -/
structure Recommendations where
  targetVersion : String
  estimatedEffort : String
  steps : List String
deriving DecidableEq

/-- Final report record assembled by analyze_repository. -/
structure ScanReport where
  repoName : String
  pythonVersion : String
  riskScore : Nat
  summary : String
  dependencies : List Finding
  syntaxIssues : List SyntaxIssue
  recommendations : Recommendations
deriving DecidableEq

/-- Translation of the two risk score lines of analyze_repository: the
weighted count capped at 95, overwritten by zero when both finding
lists are empty. -/
def computeRiskScore (numDeps numIssues : Nat) : Nat :=
  let risk_score := min (numDeps * 25 + numIssues * 10) 95
  if numDeps = 0 ∧ numIssues = 0 then 0 else risk_score

/-- Translation of the tail of the analyze_repository try block, from
the summarizer call to the construction of the final report.  The
dependency report, syntax issues and detected version produced by the
earlier steps are parameters; a raised summarizer call makes the whole
body raise, and otherwise the report is assembled with dict.get
defaults for the three narrative fields. -/
def analyze_repository_body (repoName : String) (detectedVersion : String)
    (dependency_report : List Finding) (syntax_issues : List SyntaxIssue)
    (aiResp : SummarizerResponse) : Except String ScanReport :=
  match generate_report_summary_and_steps aiResp with
  | .error msg => .error msg
  | .ok ai =>
    let risk_score := computeRiskScore dependency_report.length syntax_issues.length
    .ok
      { repoName := repoName
        pythonVersion := detectedVersion
        riskScore := risk_score
        summary := ai.summary.getD "AI summary generation failed."
        dependencies := dependency_report
        syntaxIssues := syntax_issues
        recommendations :=
          { targetVersion := "Python 3.11+"
            estimatedEffort := ai.effort.getD "Medium"
            steps := ai.steps.getD ["Review findings and prioritize fixes."] } }

/-! ### Workspace lifetime (analyze_repository try and finally)

The filesystem is modelled as the list of directories that currently
exist.  The whole try block, from the clone call through the report
construction, is an arbitrary state transformer returning either a
report or a raised exception; the finally clause then removes the
temporary directory when it still exists, and the body outcome is
passed through. -/

/-- Filesystem state: the directories that exist. -/
structure FileSystem where
  dirs : List String
deriving DecidableEq

/-- Model of tempfile.mkdtemp: create and return a fresh directory. -/
def mkdtemp (fs : FileSystem) : FileSystem × String :=
  let name := ⟨"tmp".data ++ (pyNatStr fs.dirs.length).data⟩
  (⟨name :: fs.dirs⟩, name)

/-- Model of os.path.exists restricted to directories. -/
def os_path_exists (path : String) (fs : FileSystem) : Bool :=
  fs.dirs.contains path

/-- Model of shutil.rmtree: remove every occurrence of the path. -/
def shutil_rmtree (path : String) (fs : FileSystem) : FileSystem :=
  ⟨fs.dirs.filter (fun d => d ≠ path)⟩

/-- Translation of the control shape of analyze_repository: mkdtemp
runs first, then the try block runs with the new directory (the body
parameter covers the clone and every analysis step, and its error
outcome stands for any raised exception, clone failures included), and
the finally clause removes the directory when it still exists before
the outcome of the body is surfaced. -/
def analyze_repository (fs : FileSystem)
    (body : String → FileSystem → FileSystem × Except String ScanReport) :
    FileSystem × Except String ScanReport :=
  let acquired := mkdtemp fs
  let afterBody := body acquired.2 acquired.1
  let cleaned :=
    if os_path_exists acquired.2 afterBody.1 then
      shutil_rmtree acquired.2 afterBody.1
    else afterBody.1
  (cleaned, afterBody.2)

/-! ### Helper lemmas -/

/-- Splitting a list that does not contain the separator yields the one
piece equal to the whole list. -/
theorem pySplitChar_of_not_mem (sep : Char) (l : List Char) (h : sep ∉ l) :
    pySplitChar sep l = [l] := by
  induction l with
  | nil => rfl
  | cons c rest ih =>
    have hc : ¬ c = sep := fun hh => h (hh ▸ List.mem_cons_self c rest)
    have hrest : sep ∉ rest := fun hh => h (List.mem_cons_of_mem c hh)
    simp [pySplitChar, hc, ih hrest]

/-- Splitting at the first separator occurrence peels off the piece
before it. -/
theorem pySplitChar_append (sep : Char) (l1 l2 : List Char) (h : sep ∉ l1) :
    pySplitChar sep (l1 ++ sep :: l2) = l1 :: pySplitChar sep l2 := by
  induction l1 with
  | nil => simp [pySplitChar]
  | cons c rest ih =>
    have hc : ¬ c = sep := fun hh => h (hh ▸ List.mem_cons_self c rest)
    have hrest : sep ∉ rest := fun hh => h (List.mem_cons_of_mem c hh)
    simp [pySplitChar, hc, ih hrest]

/-! ### Claim theorems -/

/-- C1.  For every dependency finding list and syntax issue list, a
report produced by the aggregation step has riskScore 0 when both lists
are empty, and min 95 (25 times the dependency count plus 10 times the
issue count) otherwise. -/
theorem report_risk_score_formula
    (n v : String) (d : List Finding) (s : List SyntaxIssue)
    (ai : SummarizerResponse) (r : ScanReport)
    (h : analyze_repository_body n v d s ai = .ok r) :
    ((d = [] ∧ s = []) → r.riskScore = 0) ∧
    (¬(d = [] ∧ s = []) → r.riskScore = min 95 (25 * d.length + 10 * s.length)) := by
  have hr : r.riskScore = computeRiskScore d.length s.length := by
    cases ai with
    | raised m => simp [analyze_repository_body, generate_report_summary_and_steps] at h
    | content o =>
      cases o with
      | none =>
        simp [analyze_repository_body, generate_report_summary_and_steps] at h
        rw [← h]
      | some c =>
        simp [analyze_repository_body, generate_report_summary_and_steps] at h
        rw [← h]
  constructor
  · rintro ⟨rfl, rfl⟩
    simp [hr, computeRiskScore]
  · intro hne
    have hlen : ¬(d.length = 0 ∧ s.length = 0) := by
      rintro ⟨h1, h2⟩
      exact hne ⟨List.eq_nil_of_length_eq_zero h1, List.eq_nil_of_length_eq_zero h2⟩
    rw [hr]
    simp only [computeRiskScore, if_neg hlen]
    omega

/-- Concrete sample finding used by the witnesses. -/
def sampleFinding : Finding :=
  ⟨"flask", "2.0.1", "incompatible", "Vulnerable to: GHSA-1"⟩

/-- Report produced by the aggregation step on one finding, no syntax
issues and a summarizer response that parsed but carried no keys. -/
def sampleReport : ScanReport :=
  ⟨"o/r", "3.9", 25, "AI summary generation failed.", [sampleFinding], [],
    ⟨"Python 3.11+", "Medium", ["Review findings and prioritize fixes."]⟩⟩

/-- Witness for C1 at one dependency finding and no syntax issues. -/
theorem report_risk_score_formula_witness :
    ¬(([sampleFinding] : List Finding) = [] ∧ ([] : List SyntaxIssue) = []) ∧
    sampleReport.riskScore =
      min 95 (25 * [sampleFinding].length + 10 * ([] : List SyntaxIssue).length) :=
  ⟨by simp,
    (report_risk_score_formula "o/r" "3.9" [sampleFinding] []
      (.content (some ⟨none, none, none⟩)) sampleReport rfl).2 (by simp)⟩

/-- C9 counterexample.  The risk score is not monotone in the sum of
the two counts: one dependency finding alone scores 25 while two syntax
issues alone score 20, although the sum grows from 1 to 2. -/
theorem risk_score_sum_monotonicity_counterexample :
    1 + 0 < 0 + 2 ∧ ¬ computeRiskScore 1 0 ≤ computeRiskScore 0 2 := by decide

/-- C9 as amended.  The risk score is monotone when neither count
decreases, is bounded by 95, and is exactly 0 at zero counts. -/
theorem risk_score_componentwise_monotone
    (d s d2 s2 : Nat) (hd : d ≤ d2) (hs : s ≤ s2) :
    computeRiskScore d s ≤ computeRiskScore d2 s2 ∧
    computeRiskScore d s ≤ 95 ∧ computeRiskScore 0 0 = 0 := by
  refine ⟨?_, ?_, rfl⟩ <;>
    · simp only [computeRiskScore, Nat.min_def]
      split_ifs <;> omega

/-- Witness for C9 as amended, at counts growing from (1, 0) to (2, 3). -/
theorem risk_score_componentwise_monotone_witness :
    computeRiskScore 1 0 ≤ computeRiskScore 2 3 ∧
    computeRiskScore 1 0 ≤ 95 ∧ computeRiskScore 0 0 = 0 :=
  risk_score_componentwise_monotone 1 0 2 3 (by decide) (by decide)

/-- C2 counterexample.  When the summarizer returns content whose JSON
parse fails, the scan is not aborted but the report carries the
ai_service fallback summary, not the claimed default; and when the
summarizer call raises, the error propagates and no report is
produced. -/
theorem summarizer_defaults_counterexample :
    (analyze_repository_body "o/r" "3.9" [] [] (.content none)).toOption.map
        ScanReport.summary = some "Analysis completed, but structured output failed." ∧
    ¬ (analyze_repository_body "o/r" "3.9" [] [] (.content none)).toOption.map
        ScanReport.summary = some "AI summary generation failed." ∧
    analyze_repository_body "o/r" "3.9" [] [] (.raised "ServerError") =
      .error "ServerError" := by
  refine ⟨rfl, ?_, rfl⟩
  decide

/-- C2 as amended.  A raised summarizer call propagates as an error of
the whole body; a response whose JSON parse fails still yields a report
carrying the ai_service fallback narrative values; and the defaults
named by the claim are applied per key exactly when the parsed content
lacks that key. -/
theorem summarizer_outcome_narrative_fields
    (n v : String) (d : List Finding) (s : List SyntaxIssue) :
    (∀ msg, analyze_repository_body n v d s (.raised msg) = .error msg) ∧
    ((analyze_repository_body n v d s (.content none)).toOption.map
        ScanReport.summary = some "Analysis completed, but structured output failed." ∧
      (analyze_repository_body n v d s (.content none)).toOption.map
        (fun r => r.recommendations.estimatedEffort) = some "Unknown" ∧
      (analyze_repository_body n v d s (.content none)).toOption.map
        (fun r => r.recommendations.steps) = some ["Review report manually."]) ∧
    (∀ ai : AIContent,
      (analyze_repository_body n v d s (.content (some ai))).toOption.map
        ScanReport.summary = some (ai.summary.getD "AI summary generation failed.") ∧
      (analyze_repository_body n v d s (.content (some ai))).toOption.map
        (fun r => r.recommendations.estimatedEffort) =
          some (ai.effort.getD "Medium") ∧
      (analyze_repository_body n v d s (.content (some ai))).toOption.map
        (fun r => r.recommendations.steps) =
          some (ai.steps.getD ["Review findings and prioritize fixes."])) := by
  refine ⟨fun msg => rfl, ⟨rfl, rfl, rfl⟩, fun ai => ⟨rfl, rfl, rfl⟩⟩

/-- C4.  Whatever the try block does, and whether it returns a report
or raises, the temporary directory created by mkdtemp no longer exists
after the finally clause runs. -/
theorem workspace_removed_on_all_paths
    (fs : FileSystem)
    (body : String → FileSystem → FileSystem × Except String ScanReport) :
    ((analyze_repository fs body).1).dirs.contains (mkdtemp fs).2 = false := by
  simp only [analyze_repository]
  split
  · simp [shutil_rmtree, List.contains]
  · next hnot =>
    simpa [os_path_exists] using hnot

/-- C5.  A file whose parse raises a SyntaxError yields exactly the one
Syntax Error issue carrying the failing line, with no traversal of any
tree; a file whose read raises yields exactly the one Analysis Error
issue. -/
theorem syntax_error_single_issue
    (filepath content ioMsg : String)
    (parse : String → Except PyFileError PyNode)
    (snippet : PyNode → String) (lineno : Nat) (msg : String) :
    (parse content = .error (.syntaxError lineno msg) →
      analyze_python_file filepath (.ok content) parse snippet =
        [syntaxErrorIssue filepath lineno msg]) ∧
    (syntaxErrorIssue filepath lineno msg).issueType = "Syntax Error" ∧
    (syntaxErrorIssue filepath lineno msg).line = lineno ∧
    analyze_python_file filepath (.error ioMsg) parse snippet =
      [analysisErrorIssue filepath ioMsg] ∧
    (analysisErrorIssue filepath ioMsg).issueType = "Analysis Error" := by
  refine ⟨fun h => ?_, rfl, rfl, rfl, rfl⟩
  simp [analyze_python_file, h]

/-- Witness for C5 at a concrete unparsable file and a concrete missing
file. -/
theorem syntax_error_single_issue_witness :
    analyze_python_file "m.py" (.ok "def f(:")
        (fun _ => .error (.syntaxError 2 "invalid syntax")) (fun _ => "") =
      [syntaxErrorIssue "m.py" 2 "invalid syntax"] ∧
    analyze_python_file "m.py" (.error "No such file or directory")
        (fun _ => .error (.syntaxError 2 "invalid syntax")) (fun _ => "") =
      [analysisErrorIssue "m.py" "No such file or directory"] :=
  ⟨(syntax_error_single_issue "m.py" "def f(:" "No such file or directory"
      (fun _ => .error (.syntaxError 2 "invalid syntax")) (fun _ => "") 2
      "invalid syntax").1 rfl,
    (syntax_error_single_issue "m.py" "def f(:" "No such file or directory"
      (fun _ => .error (.syntaxError 2 "invalid syntax")) (fun _ => "") 2
      "invalid syntax").2.2.2.1⟩

mutual
/-- Visiting a node the Python 3 parser can produce appends no issue:
there is no Print node to dispatch on, and a Python 3 Raise node fails
the type and inst attribute test of the Raise handler. -/
theorem visitNode_py3 (snippet : PyNode → String) (fp : String) :
    ∀ n : PyNode, isPy3Node n = true → visitNode snippet fp n = []
  | .printStmt _ _, h => by simp [isPy3Node] at h
  | .raiseStmt lineno attrs children, h => by
    simp only [isPy3Node, Bool.and_eq_true, Bool.not_eq_true] at h
    have h1 : "type" ∉ attrs := by simpa using h.1.1
    simp [visitNode]
    exact ⟨fun hin => absurd hin h1, visitChildren_py3 snippet fp children h.2⟩
  | .otherNode _ _ children, h => by
    simp only [isPy3Node] at h
    simp only [visitNode]
    exact visitChildren_py3 snippet fp children h
/-- Child lists of Python 3 parser output also produce no issues. -/
theorem visitChildren_py3 (snippet : PyNode → String) (fp : String) :
    ∀ l : PyNodeList, isPy3List l = true → visitChildren snippet fp l = []
  | .nil, _ => rfl
  | .cons n rest, h => by
    simp only [isPy3List, Bool.and_eq_true] at h
    simp only [visitChildren, visitNode_py3 snippet fp n h.1,
      visitChildren_py3 snippet fp rest h.2, List.nil_append]
end

/-- C10.  A file the Python 3 parser accepts produces an empty issue
list: no handler of the visitor catalog can fire on Python 3 parser
output. -/
theorem py3_parse_yields_no_issues
    (filepath content : String)
    (parse : String → Except PyFileError PyNode)
    (snippet : PyNode → String) (tree : PyNode)
    (hparse : parse content = .ok tree)
    (hpy3 : isPy3Node tree = true) :
    analyze_python_file filepath (.ok content) parse snippet = [] := by
  simp only [analyze_python_file, hparse]
  exact visitNode_py3 snippet filepath tree hpy3

/-- Witness for C10 on a module holding a modern raise statement. -/
theorem py3_parse_yields_no_issues_witness :
    analyze_python_file "ok.py" (.ok "raise ValueError(1)")
      (fun _ => .ok (.otherNode "Module" 1
        (.cons (.raiseStmt 1 ["exc", "cause", "lineno"] .nil) .nil)))
      (fun _ => "") = [] :=
  py3_parse_yields_no_issues "ok.py" "raise ValueError(1)" _ _
    (.otherNode "Module" 1 (.cons (.raiseStmt 1 ["exc", "cause", "lineno"] .nil) .nil))
    rfl (by decide)

/-- C6.  On the six-line manifest of the claim, extraction returns
exactly the flask and pandas pins in order, lowercased; the range pin,
the comment, the editable install and the bare name are all skipped and
extraction succeeds. -/
theorem requirements_roundtrip_extraction :
    parse_pinned_requirements
      "flask==2.0.1\nnumpy>=1.21.0\n# comment\n-e .\ninvalid\npandas==1.3.3" =
      [⟨"flask", "2.0.1"⟩, ⟨"pandas", "1.3.3"⟩] := by decide

/-- C7.  When all three version files are readable the runtime pin
wins, and when the runtime pin is absent or unreadable while the
version-manager pin and the manifest are readable, the version-manager
pin wins. -/
theorem version_detection_priority
    (fs : RepoVersionFiles) (c1 c2 : String) (rp pp : Option String) :
    (fs.runtime_txt = .content c1 → fs.python_version_file = .content c2 →
      fs.pyproject_toml = .parsed rp pp →
      detect_python_version fs = processRuntimeContent c1) ∧
    ((fs.runtime_txt = .absent ∨ fs.runtime_txt = .readError) →
      fs.python_version_file = .content c2 →
      fs.pyproject_toml = .parsed rp pp →
      detect_python_version fs = pyStrip c2) := by
  obtain ⟨rt, pv, pt⟩ := fs
  constructor
  · rintro rfl rfl rfl
    simp [detect_python_version]
  · rintro (rfl | rfl) rfl rfl <;> simp [detect_python_version]

/-- Witness for C7 at concrete version files. -/
theorem version_detection_priority_witness :
    detect_python_version
        ⟨.content "python-3.9.10", .content " 3.10 ", .parsed (some "3.11") none⟩ =
      processRuntimeContent "python-3.9.10" ∧
    detect_python_version
        ⟨.absent, .content " 3.10 ", .parsed (some "3.11") none⟩ =
      pyStrip " 3.10 " :=
  ⟨(version_detection_priority
      ⟨.content "python-3.9.10", .content " 3.10 ", .parsed (some "3.11") none⟩
      "python-3.9.10" " 3.10 " (some "3.11") none).1 rfl rfl rfl,
    (version_detection_priority
      ⟨.absent, .content " 3.10 ", .parsed (some "3.11") none⟩
      "python-3.9.10" " 3.10 " (some "3.11") none).2 (Or.inl rfl) rfl rfl⟩

/-- C8 counterexample.  On a prefixed content whose remainder holds a
further hyphen, detection does not return the remainder after the
stripped marker: the source indexes element 1 of the full split, so the
remainder is truncated at the next hyphen. -/
theorem runtime_pin_remainder_counterexample :
    pyStartsWith (pyStrip "python-3.9.10-rc1") "python-" = true ∧
    processRuntimeContent "python-3.9.10-rc1" = "3.9.10" ∧
    processRuntimeContent "python-3.9.10-rc1" ≠ "3.9.10-rc1" := by decide

/-- C8 as amended.  When the stripped runtime-pin content starts with
the language marker and the remainder holds no further hyphen,
detection returns the remainder; content without the marker is returned
stripped; and with no recognized version file the sentinel is
returned. -/
theorem runtime_pin_format_handling :
    (∀ (content : String) (rest : List Char),
      (pyStrip content).data = "python-".data ++ rest → '-' ∉ rest →
      processRuntimeContent content = ⟨rest⟩) ∧
    (∀ content : String, pyStartsWith (pyStrip content) "python-" = false →
      processRuntimeContent content = pyStrip content) ∧
    detect_python_version ⟨.absent, .absent, .absent⟩ = "Undetermined" := by
  refine ⟨?_, ?_, by decide⟩
  · intro content rest hdata hnm
    have hpre : pyStartsWith (pyStrip content) "python-" = true := by
      simp only [pyStartsWith, hdata]
      exact List.isPrefixOf_iff_prefix.mpr (List.prefix_append _ _)
    have hsplit : ("python-".data : List Char) ++ rest = "python".data ++ '-' :: rest := by
      rw [show ("python-".data : List Char) = "python".data ++ ['-'] from by decide]
      simp
    simp only [processRuntimeContent, hpre, if_true, pySplit, hdata, hsplit,
      pySplitChar_append '-' ("python".data) rest (by decide),
      pySplitChar_of_not_mem '-' rest hnm]
    rfl
  · intro content hns
    simp [processRuntimeContent, hns]

/-- Witness for C8 as amended, at the two contents named by the claim. -/
theorem runtime_pin_format_handling_witness :
    processRuntimeContent "python-3.9.10" = ⟨"3.9.10".data⟩ ∧
    processRuntimeContent "3.8" = pyStrip "3.8" :=
  ⟨runtime_pin_format_handling.1 "python-3.9.10" "3.9.10".data (by decide) (by decide),
    runtime_pin_format_handling.2.1 "3.8" (by decide)⟩

/-- C3.  When the batch response count differs from the query count,
every dependency whose results_map entry lists vulnerabilities receives
a finding carrying its own name and version, and every finding emitted
by the mismatch branch is attributed to some queried dependency. -/
theorem osv_mismatch_reconciliation
    (dependencies : List Dependency) (results : List OSVResult)
    (hne : dependencies ≠ [])
    (hcount : results.length ≠ dependencies.length) :
    (∀ dep ∈ dependencies, ∀ (r : OSVResult) (entries : List (Option String)),
      resultsMapLookup results dep.name dep.version = some r →
      r.vulns = some entries →
      (⟨dep.name, dep.version, "incompatible", vulnReason entries⟩ : Finding) ∈
        check_osv_for_vulnerabilities dependencies (.ok results)) ∧
    (∀ f ∈ check_osv_for_vulnerabilities dependencies (.ok results),
      ∃ dep ∈ dependencies, f.name = dep.name ∧ f.version = dep.version ∧
        f.status = "incompatible") := by
  have hbranch : check_osv_for_vulnerabilities dependencies (.ok results) =
      dependencies.filterMap (fun dep =>
        match resultsMapLookup results dep.name dep.version with
        | some r =>
          match r.vulns with
          | some entries =>
            some ⟨dep.name, dep.version, "incompatible", vulnReason entries⟩
          | none => none
        | none => none) := by
    simp only [check_osv_for_vulnerabilities, if_neg hne, if_pos hcount]
  constructor
  · intro dep hdep r entries hlook hv
    rw [hbranch]
    refine List.mem_filterMap.mpr ⟨dep, hdep, ?_⟩
    simp only [hlook, hv]
  · intro f hf
    rw [hbranch] at hf
    obtain ⟨dep, hdep, hg⟩ := List.mem_filterMap.mp hf
    refine ⟨dep, hdep, ?_⟩
    split at hg
    · split at hg
      · cases hg
        exact ⟨rfl, rfl, rfl⟩
      · cases hg
    · cases hg

/-- Witness for C3: two queried dependencies, one returned result with
a query echo, so counts differ; the matched dependency keeps its
finding. -/
theorem osv_mismatch_reconciliation_witness :
    (⟨"flask", "2.0.1", "incompatible", vulnReason [some "GHSA-1"]⟩ : Finding) ∈
      check_osv_for_vulnerabilities [⟨"flask", "2.0.1"⟩, ⟨"pandas", "1.3.3"⟩]
        (.ok [⟨some ⟨"flask", "2.0.1"⟩, some [some "GHSA-1"]⟩]) :=
  (osv_mismatch_reconciliation [⟨"flask", "2.0.1"⟩, ⟨"pandas", "1.3.3"⟩]
      [⟨some ⟨"flask", "2.0.1"⟩, some [some "GHSA-1"]⟩]
      (by decide) (by decide)).1
    ⟨"flask", "2.0.1"⟩ (by decide)
    ⟨some ⟨"flask", "2.0.1"⟩, some [some "GHSA-1"]⟩ [some "GHSA-1"]
    (by decide) rfl
